import Mathlib

/-!
# Book service: handlers over a relational store

A shallow embedding of `main.go`: the six HTTP handlers of `Repo`
(`CreateBook`, `DeleteBook`, `GetBooks`, `GetBookByID`, `UpdateTitle`,
`GetBooksByID`) and the route table `SetupRoutes`.

The handlers call an object-relational mapper over a SQL engine.  Both are
external to the repository; they are modelled here as explicit state passing
over a table of rows:

* `Store` is the `books` table together with its identifier sequence;
* `GormDB` is the state behind the `*gorm.DB` handle: the store, the
  transport outcome of the storage calls still to come, and the record of
  the storage calls issued so far;
* `Engine` is how the SQL engine reads a text as an integer key or as a
  row condition.

What is assumed of the external layers is stated with each storage call: a
call either fails in transit with the driver's error text, leaving the table
as it was, or reaches the engine; a `DELETE` that matches no row is not an
error; `First` on no row is the error `record not found`; `Save` of a model
with a non-zero key rewrites the rows with that key; `Create` draws the
identifier from the sequence of the key column.
-/

set_option autoImplicit false

namespace BookService

/-! ## Data model -/

deriving instance DecidableEq for Except

/-- The request and response shape of `CreateBook`: `type Book struct` of
`main.go`, three text fields and no identifier. -/
structure Book where
  Author : String
  Title : String
  Publisher : String
  deriving DecidableEq, Repr

/-- Modelled from the spec: the entity `models.Book`, whose declaration is
not part of the sources.  A numeric identifier (primary key, assigned by the
storage layer), author (text), title (text, optionally absent) and publisher
(text). -/
structure Row where
  ID : Nat
  Author : String
  Title : Option String
  Publisher : String
  deriving DecidableEq, Repr

/-- The `books` table: its rows in storage order, and the last value handed
out by the identifier sequence of the primary key column. -/
structure Store where
  rows : List Row
  lastID : Nat
  deriving DecidableEq, Repr

/-- The store before anything was created. -/
def Store.empty : Store := ⟨[], 0⟩

/-- The constraints the schema puts on the table: the primary key is unique,
and every identifier is a positive value the sequence has already handed
out. -/
def Store.Valid (s : Store) : Prop :=
  (s.rows.map Row.ID).Nodup ∧ ∀ r ∈ s.rows, 0 < r.ID ∧ r.ID ≤ s.lastID

instance (s : Store) : Decidable s.Valid := by
  unfold Store.Valid; infer_instance

/-- The storage calls a handler can issue, with their arguments. -/
inductive Call
  | Create (book : Book)
  | Delete (id : String)
  | Find
  | WhereIDFirst (id : String)
  | Save (row : Row)
  | WhereGt5OrderDescFind
  deriving DecidableEq, Repr

/-- The state behind the `*gorm.DB` handle.  `faults` lists, for the storage
calls still to come, whether the call fails in transit (`some msg`, the
driver's error text) or reaches the engine (`none`); past the end of the list
every call reaches the engine.  `log` records the calls issued, oldest
first. -/
structure GormDB where
  store : Store
  faults : List (Option String)
  log : List Call
  deriving DecidableEq, Repr

/-- The handler receiver: `type Repo struct { DB *gorm.DB }`. -/
structure Repo where
  DB : GormDB
  deriving DecidableEq, Repr

/-! ## The SQL engine's reading of texts -/

/-- Value of a non-empty run of decimal digits. -/
def digitsValue : List Char → Option Nat
  | [] => none
  | c :: cs =>
    (c :: cs).foldl
      (fun acc d => match acc with
        | none => none
        | some n => if 48 ≤ d.toNat ∧ d.toNat ≤ 57 then some (n * 10 + (d.toNat - 48)) else none)
      (some 0)

/-- Go's `strconv.Atoi` on a 64-bit platform: an optional sign, at least one
decimal digit, and a value that fits a signed 64-bit integer. -/
def Atoi (s : String) : Option Int :=
  match s.toList with
  | '-' :: ds => (digitsValue ds).bind fun n => if n ≤ 2 ^ 63 then some (-(n : Int)) else none
  | '+' :: ds => (digitsValue ds).bind fun n => if n < 2 ^ 63 then some (n : Int) else none
  | ds => (digitsValue ds).bind fun n => if n < 2 ^ 63 then some (n : Int) else none

/-- How the SQL engine reads a text.  `intKey s` is the integer the engine
compares with the key column when `s` is bound to the placeholder of
`id = ?` (or the error it raises when `s` is no integer); `inlineCond s` is
the row condition that `s` denotes when it is spliced into a statement as its
`WHERE` clause (or the error the engine raises).  `typed`: a text that reads
as an integer is not a boolean condition. -/
structure Engine where
  intKey : String → Except String Int
  inlineCond : String → Except String (Row → Bool)
  typed : ∀ s k, intKey s = .ok k → ∃ e, inlineCond s = .error e

/-- An engine that reads signed decimal numerals as keys and accepts no
inline condition. -/
def Engine.decimal : Engine where
  intKey s := match Atoi s with
    | some k => .ok k
    | none => .error "invalid input syntax for type bigint"
  inlineCond _ := .error "syntax error in WHERE clause"
  typed _ _ _ := ⟨_, rfl⟩

/-- An engine that reads signed decimal numerals as keys and accepts the
inline condition `1=1`, true of every row. -/
def Engine.tautology : Engine where
  intKey s := match Atoi s with
    | some k => .ok k
    | none => .error "invalid input syntax for type bigint"
  inlineCond s := if s = "1=1" then .ok fun _ => true else .error "syntax error in WHERE clause"
  typed s k h := by
    by_cases hs : s = "1=1"
    · subst hs
      exact Except.noConfusion h
    · exact ⟨_, if_neg hs⟩

/-! ## Storage calls -/

/-- Issue a storage call: record it and consume the next transport outcome. -/
def GormDB.issue (db : GormDB) (call : Call) : Option String × GormDB :=
  match db.faults with
  | [] => (none, { db with log := db.log ++ [call] })
  | f :: fs => (f, { db with faults := fs, log := db.log ++ [call] })

/-- The transport outcome awaiting the next storage call: `none` when the
call will reach the engine. -/
def GormDB.nextFault (db : GormDB) : Option String :=
  match db.faults with
  | [] => none
  | f :: _ => f

/-- The row condition of the `DELETE` statement that `Delete(bookModel, id)`
builds from the inline condition `id`: a text that `Atoi` accepts is compared
with the primary key, any other text is spliced in as the `WHERE` clause. -/
def Engine.deleteCond (E : Engine) (id : String) : Except String (Row → Bool) :=
  if (Atoi id).isSome then
    match E.intKey id with
    | .ok k => .ok fun r => decide ((r.ID : Int) = k)
    | .error e => .error e
  else E.inlineCond id

/-- Insert a row with the next value of the identifier sequence.  The
sequence advances even when the insert is refused by the primary key. -/
def Store.insertNext (s : Store) (author : String) (title : Option String)
    (publisher : String) : Except String Row × Store :=
  let n := s.lastID + 1
  if s.rows.any (fun r => r.ID == n) then
    (.error "duplicate key value violates unique constraint", { s with lastID := n })
  else
    (.ok ⟨n, author, title, publisher⟩,
      { rows := s.rows ++ [⟨n, author, title, publisher⟩], lastID := n })

/-- The call `DB.Create(&book)` with `book : Book`: one `INSERT` of the three
fields; the identifier comes from the sequence and is not read back, `Book`
having no field for it. -/
def GormDB.Create (db : GormDB) (book : Book) : Except String Unit × GormDB :=
  match db.issue (.Create book) with
  | (some err, db1) => (.error err, db1)
  | (none, db1) =>
    match db1.store.insertNext book.Author (some book.Title) book.Publisher with
    | (.error err, s) => (.error err, { db1 with store := s })
    | (.ok _, s) => (.ok (), { db1 with store := s })

/-- The call `DB.Delete(bookModel, id)`: one `DELETE`; a statement that
matches no row is not an error. -/
def GormDB.Delete (E : Engine) (db : GormDB) (id : String) : Except String Unit × GormDB :=
  match db.issue (.Delete id) with
  | (some err, db1) => (.error err, db1)
  | (none, db1) =>
    match E.deleteCond id with
    | .error err => (.error err, db1)
    | .ok p => (.ok (), { db1 with store := { db1.store with rows := db1.store.rows.filter fun r => !p r } })

/-- The call `DB.Find(bookModels)`: every row, in storage order. -/
def GormDB.Find (db : GormDB) : Except String (List Row) × GormDB :=
  match db.issue .Find with
  | (some err, db1) => (.error err, db1)
  | (none, db1) => (.ok db1.store.rows, db1)

/-- The call `DB.Where("id = ?", id).First(bookModel)`: the first row whose
key equals the bound value, or the error `record not found`. -/
def GormDB.WhereIDFirst (E : Engine) (db : GormDB) (id : String) : Except String Row × GormDB :=
  match db.issue (.WhereIDFirst id) with
  | (some err, db1) => (.error err, db1)
  | (none, db1) =>
    match E.intKey id with
    | .error err => (.error err, db1)
    | .ok k =>
      match db1.store.rows.find? (fun r => decide ((r.ID : Int) = k)) with
      | none => (.error "record not found", db1)
      | some r => (.ok r, db1)

/-- The call `DB.Save(bookModel)`: with a zero primary key an insert with a
fresh identifier; otherwise an update of every field of the rows with that
key, and, when no row has it, an insert of the row as given.  The result is
the model as written. -/
def GormDB.Save (db : GormDB) (row : Row) : Except String Row × GormDB :=
  match db.issue (.Save row) with
  | (some err, db1) => (.error err, db1)
  | (none, db1) =>
    if row.ID = 0 then
      match db1.store.insertNext row.Author row.Title row.Publisher with
      | (.error err, s) => (.error err, { db1 with store := s })
      | (.ok r, s) => (.ok r, { db1 with store := s })
    else if db1.store.rows.any (fun r => r.ID == row.ID) then
      (.ok row, { db1 with store := { db1.store with
        rows := db1.store.rows.map fun r => if r.ID = row.ID then row else r } })
    else
      (.ok row, { db1 with store := { db1.store with rows := db1.store.rows ++ [row] } })

/-- The call `DB.Where("id > ? ", 5).Order("id desc").Find(bookModels)`. -/
def GormDB.WhereGt5OrderDescFind (db : GormDB) : Except String (List Row) × GormDB :=
  match db.issue .WhereGt5OrderDescFind with
  | (some err, db1) => (.error err, db1)
  | (none, db1) =>
    (.ok ((db1.store.rows.filter fun r => 5 < r.ID).insertionSort fun a b => b.ID ≤ a.ID), db1)

/-! ## HTTP responses -/

/-- The constant `http.StatusOK`. -/
def StatusOK : Nat := 200
/-- The constant `http.StatusCreated`. -/
def StatusCreated : Nat := 201
/-- The constant `http.StatusBadRequest`. -/
def StatusBadRequest : Nat := 400
/-- The constant `http.StatusUnprocessableEntity`. -/
def StatusUnprocessableEntity : Nat := 422

/-- The JSON documents the handlers write. -/
inductive Body
  /-- `JSON(s)` for a string `s`: an error text. -/
  | text (s : String)
  /-- `JSON(book)` for `book : Book`. -/
  | created (book : Book)
  /-- `JSON(fiber.Map{"msg": s})`. -/
  | msg (s : String)
  /-- `JSON(fiber.Map{"book": bookModel})`. -/
  | book (row : Row)
  /-- `JSON(fiber.Map{"books": bookModels})`. -/
  | books (rows : List Row)
  deriving DecidableEq, Repr

/-- The identifier carried by a response body that holds a single entity. -/
def Body.identifier : Body → Option Nat
  | .book row => some row.ID
  | _ => none

/-- An HTTP response: status code and JSON body. -/
structure Response where
  status : Nat
  body : Body
  deriving DecidableEq, Repr

/-! ## Handlers -/

/-- Handler of `POST /api/create_books`.  `body` is the outcome of
`c.BodyParser(&book)`. -/
def Repo.CreateBook (r : Repo) (body : Except String Book) : Response × Repo :=
  match body with
  | .error err => (⟨StatusUnprocessableEntity, .text err⟩, r)
  | .ok book =>
    match r.DB.Create book with
    | (.error err, db) => (⟨StatusBadRequest, .text err⟩, ⟨db⟩)
    | (.ok _, db) => (⟨StatusCreated, .created book⟩, ⟨db⟩)

/-- Handler of `DELETE /api/delete_books/:id`.  `id` is `c.Params("id")`. -/
def Repo.DeleteBook (E : Engine) (r : Repo) (id : String) : Response × Repo :=
  if id = "" then (⟨StatusBadRequest, .text "id is required"⟩, r)
  else
    match r.DB.Delete E id with
    | (.error err, db) => (⟨StatusBadRequest, .text err⟩, ⟨db⟩)
    | (.ok _, db) => (⟨StatusOK, .msg "Book deleted successfully"⟩, ⟨db⟩)

/-- Handler of `GET /api/books`. -/
def Repo.GetBooks (r : Repo) : Response × Repo :=
  match r.DB.Find with
  | (.error err, db) => (⟨StatusBadRequest, .text err⟩, ⟨db⟩)
  | (.ok bookModels, db) => (⟨StatusOK, .books bookModels⟩, ⟨db⟩)

/-- Handler of `GET /api/get_books/:id`. -/
def Repo.GetBookByID (E : Engine) (r : Repo) (id : String) : Response × Repo :=
  if id = "" then (⟨StatusBadRequest, .text "id is required"⟩, r)
  else
    match r.DB.WhereIDFirst E id with
    | (.error err, db) => (⟨StatusBadRequest, .text err⟩, ⟨db⟩)
    | (.ok bookModel, db) => (⟨StatusOK, .book bookModel⟩, ⟨db⟩)

/-- Handler of `PATCH /api/update_title/:id`.  `body` is the outcome of
`c.BodyParser(&body)`, the decoded value being `body.Title`. -/
def Repo.UpdateTitle (E : Engine) (r : Repo) (id : String) (body : Except String String) :
    Response × Repo :=
  if id = "" then (⟨StatusBadRequest, .text "id is required"⟩, r)
  else
    match body with
    | .error err => (⟨StatusBadRequest, .text err⟩, r)
    | .ok title =>
      match r.DB.WhereIDFirst E id with
      | (.error err, db) => (⟨StatusBadRequest, .text err⟩, ⟨db⟩)
      | (.ok bookModel, db) =>
        match db.Save { bookModel with Title := some title } with
        | (.error err, db2) => (⟨StatusBadRequest, .text err⟩, ⟨db2⟩)
        | (.ok saved, db2) => (⟨StatusOK, .book saved⟩, ⟨db2⟩)

/-- Handler of `GET /api/get_books_by_id`: the books whose id is greater
than 5. -/
def Repo.GetBooksByID (r : Repo) : Response × Repo :=
  match r.DB.WhereGt5OrderDescFind with
  | (.error err, db) => (⟨StatusBadRequest, .text err⟩, ⟨db⟩)
  | (.ok bookModels, db) => (⟨StatusOK, .books bookModels⟩, ⟨db⟩)

/-- A request as the router delivers it to a handler: the route, the path
parameter and the outcome of parsing the body. -/
inductive Request
  | CreateBooks (body : Except String Book)
  | DeleteBooks (id : String)
  | GetBooksID (id : String)
  | Books
  | UpdateTitle (id : String) (body : Except String String)
  | GetBooksByID

/-- The route table of `SetupRoutes`. -/
def Repo.SetupRoutes (E : Engine) (r : Repo) : Request → Response × Repo
  | .CreateBooks body => r.CreateBook body
  | .DeleteBooks id => r.DeleteBook E id
  | .GetBooksID id => r.GetBookByID E id
  | .Books => r.GetBooks
  | .UpdateTitle id body => r.UpdateTitle E id body
  | .GetBooksByID => r.GetBooksByID

/-! ## Notions used to state the properties -/

/-- The engine reads `id` as the key of `row`. -/
def Engine.identifies (E : Engine) (id : String) (row : Row) : Bool :=
  match E.intKey id with
  | .ok k => decide ((row.ID : Int) = k)
  | .error _ => false

/-- A request that changes the set of stored entities. -/
inductive Op
  | Create (book : Book)
  | Delete (id : String)

/-- Serve the requests in order on `r`, each of them having to succeed (201
for a creation, 200 for a deletion); `none` as soon as one does not. -/
def Repo.serve (E : Engine) : Repo → List Op → Option Repo
  | r, [] => some r
  | r, .Create book :: ops =>
    if (r.CreateBook (.ok book)).1.status = StatusCreated then
      Repo.serve E (r.CreateBook (.ok book)).2 ops
    else none
  | r, .Delete id :: ops =>
    if (r.DeleteBook E id).1.status = StatusOK then
      Repo.serve E (r.DeleteBook E id).2 ops
    else none

/-- The deletion names its entity by a numeral, the form `Delete` compares
with the primary key; creations qualify as they are. -/
def Op.byKey : Op → Bool
  | .Create _ => true
  | .Delete id => (Atoi id).isSome

/-- The entities created and not yet deleted, in the spec's words, after the
successful requests `ops`, starting from `n` identifiers assigned and the
entities `live`: a creation adds an entity with the request's fields and the
next identifier, a deletion removes the entity whose identifier is the one
given, and no other. -/
def ledger (E : Engine) : Nat → List Row → List Op → List Row
  | _, live, [] => live
  | n, live, .Create book :: ops =>
    ledger E (n + 1) (live ++ [⟨n + 1, book.Author, some book.Title, book.Publisher⟩]) ops
  | n, live, .Delete id :: ops =>
    ledger E n (live.filter fun x => !E.identifies id x) ops

/-! ## Sample repositories -/

/-- A repository with three books, no pending outcome and an empty log. -/
def sampleRepo : Repo :=
  ⟨{ store := ⟨[⟨1, "a", some "t", "p"⟩, ⟨6, "b", none, "q"⟩, ⟨9, "c", some "u", "r"⟩], 9⟩,
     faults := [], log := [] }⟩

/-- A repository whose store is empty, with no pending outcome. -/
def emptyRepo : Repo := ⟨{ store := Store.empty, faults := [], log := [] }⟩

/-- The sample store behind a connection whose third storage call fails in
transit. -/
def flakyRepo : Repo :=
  ⟨{ store := sampleRepo.DB.store, faults := [none, none, some "connection refused"],
     log := [] }⟩

/-- A connection to the empty store whose second storage call fails in
transit. -/
def flakyEmptyRepo : Repo :=
  ⟨{ store := Store.empty, faults := [none, some "connection refused"], log := [] }⟩

/-- The sample store behind a connection whose next storage call fails in
transit. -/
def downRepo : Repo :=
  ⟨{ store := sampleRepo.DB.store, faults := [some "connection refused"], log := [] }⟩

/-! ## Facts about the storage calls -/

theorem GormDB.issue_fst (db : GormDB) (call : Call) : (db.issue call).1 = db.nextFault := by
  unfold GormDB.issue GormDB.nextFault; cases db.faults <;> rfl

theorem GormDB.issue_store (db : GormDB) (call : Call) : (db.issue call).2.store = db.store := by
  unfold GormDB.issue; cases db.faults <;> rfl

theorem GormDB.issue_log (db : GormDB) (call : Call) :
    (db.issue call).2.log = db.log ++ [call] := by
  unfold GormDB.issue; cases db.faults <;> rfl

theorem GormDB.issue_eq {db db1 : GormDB} {call : Call} {f : Option String}
    (h : db.issue call = (f, db1)) :
    f = db.nextFault ∧ db1.store = db.store ∧ db1.log = db.log ++ [call] := by
  have h1 := GormDB.issue_fst db call
  have h2 := GormDB.issue_store db call
  have h3 := GormDB.issue_log db call
  rw [h] at h1 h2 h3
  exact ⟨h1, h2, h3⟩

/-- The lookup by identifier never changes the store, and records one call. -/
theorem GormDB.WhereIDFirst_frame (E : Engine) (db : GormDB) (id : String) :
    (db.WhereIDFirst E id).2.store = db.store ∧
      (db.WhereIDFirst E id).2.log = db.log ++ [.WhereIDFirst id] := by
  unfold GormDB.WhereIDFirst
  rcases h : db.issue (.WhereIDFirst id) with ⟨f, db1⟩
  obtain ⟨-, hs, hl⟩ := GormDB.issue_eq h
  cases f with
  | some e => exact ⟨hs, hl⟩
  | none =>
    dsimp only
    cases E.intKey id with
    | error e => exact ⟨hs, hl⟩
    | ok k =>
      dsimp only
      cases db1.store.rows.find? (fun r => decide ((r.ID : Int) = k)) <;> exact ⟨hs, hl⟩

/-- What the lookup by identifier returns, in terms of the store it is
issued on. -/
theorem GormDB.WhereIDFirst_fst (E : Engine) (db : GormDB) (id : String) :
    (db.WhereIDFirst E id).1 =
      match db.nextFault with
      | some e => .error e
      | none =>
        match E.intKey id with
        | .error e => .error e
        | .ok k =>
          match db.store.rows.find? (fun r => decide ((r.ID : Int) = k)) with
          | none => .error "record not found"
          | some r => .ok r := by
  unfold GormDB.WhereIDFirst
  rcases h : db.issue (.WhereIDFirst id) with ⟨f, db1⟩
  obtain ⟨hf, hs, -⟩ := GormDB.issue_eq h
  subst hf
  rw [← hs]
  cases db.nextFault with
  | some e => rfl
  | none =>
    dsimp only
    cases E.intKey id with
    | error e => rfl
    | ok k =>
      dsimp only
      cases db1.store.rows.find? (fun r => decide ((r.ID : Int) = k)) <;> rfl

/-- What `Find` returns and leaves behind. -/
theorem GormDB.Find_eq (db : GormDB) :
    (db.Find).1 = (match db.nextFault with
      | some e => .error e
      | none => .ok db.store.rows) ∧
    (db.Find).2.store = db.store ∧ (db.Find).2.log = db.log ++ [.Find] := by
  unfold GormDB.Find
  rcases h : db.issue .Find with ⟨f, db1⟩
  obtain ⟨hf, hs, hl⟩ := GormDB.issue_eq h
  subst hf
  rw [← hs]
  cases db.nextFault <;> exact ⟨rfl, rfl, hl⟩

/-- What the filtered, ordered query returns and leaves behind. -/
theorem GormDB.WhereGt5OrderDescFind_eq (db : GormDB) :
    (db.WhereGt5OrderDescFind).1 = (match db.nextFault with
      | some e => .error e
      | none => .ok ((db.store.rows.filter fun r => 5 < r.ID).insertionSort
          fun a b => b.ID ≤ a.ID)) ∧
    (db.WhereGt5OrderDescFind).2.store = db.store ∧
    (db.WhereGt5OrderDescFind).2.log = db.log ++ [.WhereGt5OrderDescFind] := by
  unfold GormDB.WhereGt5OrderDescFind
  rcases h : db.issue .WhereGt5OrderDescFind with ⟨f, db1⟩
  obtain ⟨hf, hs, hl⟩ := GormDB.issue_eq h
  subst hf
  rw [← hs]
  cases db.nextFault <;> exact ⟨rfl, rfl, hl⟩

/-- What `Delete` returns and leaves behind. -/
theorem GormDB.Delete_eq (E : Engine) (db : GormDB) (id : String) :
    (db.Delete E id).1 = (match db.nextFault with
      | some e => .error e
      | none =>
        match E.deleteCond id with
        | .error e => .error e
        | .ok _ => .ok ()) ∧
    (db.Delete E id).2.store = (match db.nextFault with
      | some _ => db.store
      | none =>
        match E.deleteCond id with
        | .error _ => db.store
        | .ok p => { db.store with rows := db.store.rows.filter fun r => !p r }) ∧
    (db.Delete E id).2.log = db.log ++ [.Delete id] := by
  unfold GormDB.Delete
  rcases h : db.issue (.Delete id) with ⟨f, db1⟩
  obtain ⟨hf, hs, hl⟩ := GormDB.issue_eq h
  subst hf
  rw [← hs]
  cases db.nextFault with
  | some e => exact ⟨rfl, rfl, hl⟩
  | none =>
    dsimp only
    cases E.deleteCond id <;> exact ⟨rfl, rfl, hl⟩

/-- What `Create` returns and leaves behind. -/
theorem GormDB.Create_eq (db : GormDB) (book : Book) :
    (db.Create book).1 = (match db.nextFault with
      | some e => .error e
      | none =>
        match (db.store.insertNext book.Author (some book.Title) book.Publisher).1 with
        | .error e => .error e
        | .ok _ => .ok ()) ∧
    (db.Create book).2.store = (match db.nextFault with
      | some _ => db.store
      | none => (db.store.insertNext book.Author (some book.Title) book.Publisher).2) ∧
    (db.Create book).2.log = db.log ++ [.Create book] := by
  unfold GormDB.Create
  rcases h : db.issue (.Create book) with ⟨f, db1⟩
  obtain ⟨hf, hs, hl⟩ := GormDB.issue_eq h
  subst hf
  rw [← hs]
  cases db.nextFault with
  | some e => exact ⟨rfl, rfl, hl⟩
  | none =>
    dsimp only
    rcases h2 : db1.store.insertNext book.Author (some book.Title) book.Publisher with ⟨res, s⟩
    cases res <;> exact ⟨rfl, rfl, hl⟩

/-- The log after `Save`. -/
theorem GormDB.Save_log (db : GormDB) (row : Row) :
    (db.Save row).2.log = db.log ++ [.Save row] := by
  unfold GormDB.Save
  rcases h : db.issue (.Save row) with ⟨f, db1⟩
  obtain ⟨-, -, hl⟩ := GormDB.issue_eq h
  cases f with
  | some e => exact hl
  | none =>
    dsimp only
    split
    · rcases h2 : db1.store.insertNext row.Author row.Title row.Publisher with ⟨res, s⟩
      cases res <;> exact hl
    · split <;> exact hl

/-- On a store that holds a row with the key of `row`, the key being
non-zero, `Save` either fails in transit or rewrites the rows with that
key. -/
theorem GormDB.Save_update (db : GormDB) (row : Row) (h0 : row.ID ≠ 0)
    (hmem : ∃ x ∈ db.store.rows, x.ID = row.ID) :
    ((db.Save row).1 = (match db.nextFault with
      | some e => .error e
      | none => .ok row)) ∧
    (db.Save row).2.store = (match db.nextFault with
      | some _ => db.store
      | none => { db.store with
          rows := db.store.rows.map fun r => if r.ID = row.ID then row else r }) := by
  unfold GormDB.Save
  rcases h : db.issue (.Save row) with ⟨f, db1⟩
  obtain ⟨hf, hs, -⟩ := GormDB.issue_eq h
  subst hf
  rw [← hs]
  cases db.nextFault with
  | some e => exact ⟨rfl, rfl⟩
  | none =>
    dsimp only
    rw [if_neg h0]
    have : db1.store.rows.any (fun r => r.ID == row.ID) = true := by
      rw [List.any_eq_true]
      obtain ⟨x, hx, hxe⟩ := hmem
      exact ⟨x, hs ▸ hx, by simp [hxe]⟩
    rw [if_pos this]
    exact ⟨rfl, rfl⟩

/-! ## The handlers in terms of the storage calls -/

theorem Repo.CreateBook_ok (r : Repo) (book : Book) :
    r.CreateBook (.ok book) =
      ((match (r.DB.Create book).1 with
        | .error err => ⟨StatusBadRequest, .text err⟩
        | .ok _ => ⟨StatusCreated, .created book⟩), ⟨(r.DB.Create book).2⟩) := by
  unfold Repo.CreateBook
  dsimp only
  rcases h : r.DB.Create book with ⟨res, db⟩
  cases res <;> rfl

theorem Repo.DeleteBook_nonempty (E : Engine) (r : Repo) (id : String) (hid : id ≠ "") :
    r.DeleteBook E id =
      ((match (r.DB.Delete E id).1 with
        | .error err => ⟨StatusBadRequest, .text err⟩
        | .ok _ => ⟨StatusOK, .msg "Book deleted successfully"⟩), ⟨(r.DB.Delete E id).2⟩) := by
  unfold Repo.DeleteBook
  rw [if_neg hid]
  rcases h : r.DB.Delete E id with ⟨res, db⟩
  cases res <;> rfl

theorem Repo.GetBooks_eq (r : Repo) :
    r.GetBooks =
      ((match (r.DB.Find).1 with
        | .error err => ⟨StatusBadRequest, .text err⟩
        | .ok bookModels => ⟨StatusOK, .books bookModels⟩), ⟨(r.DB.Find).2⟩) := by
  unfold Repo.GetBooks
  rcases h : r.DB.Find with ⟨res, db⟩
  cases res <;> rfl

theorem Repo.GetBookByID_nonempty (E : Engine) (r : Repo) (id : String) (hid : id ≠ "") :
    r.GetBookByID E id =
      ((match (r.DB.WhereIDFirst E id).1 with
        | .error err => ⟨StatusBadRequest, .text err⟩
        | .ok bookModel => ⟨StatusOK, .book bookModel⟩), ⟨(r.DB.WhereIDFirst E id).2⟩) := by
  unfold Repo.GetBookByID
  rw [if_neg hid]
  rcases h : r.DB.WhereIDFirst E id with ⟨res, db⟩
  cases res <;> rfl

theorem Repo.GetBooksByID_eq (r : Repo) :
    r.GetBooksByID =
      ((match (r.DB.WhereGt5OrderDescFind).1 with
        | .error err => ⟨StatusBadRequest, .text err⟩
        | .ok bookModels => ⟨StatusOK, .books bookModels⟩),
        ⟨(r.DB.WhereGt5OrderDescFind).2⟩) := by
  unfold Repo.GetBooksByID
  rcases h : r.DB.WhereGt5OrderDescFind with ⟨res, db⟩
  cases res <;> rfl

theorem Repo.UpdateTitle_unparsed (E : Engine) (r : Repo) (id e : String) (hid : id ≠ "") :
    r.UpdateTitle E id (.error e) = (⟨400, .text e⟩, r) := by
  unfold Repo.UpdateTitle
  rw [if_neg hid]
  rfl

theorem Repo.UpdateTitle_nonempty (E : Engine) (r : Repo) (id title : String) (hid : id ≠ "") :
    r.UpdateTitle E id (.ok title) =
      match (r.DB.WhereIDFirst E id).1 with
      | .error err => (⟨StatusBadRequest, .text err⟩, ⟨(r.DB.WhereIDFirst E id).2⟩)
      | .ok bookModel =>
        ((match ((r.DB.WhereIDFirst E id).2.Save { bookModel with Title := some title }).1 with
          | .error err => ⟨StatusBadRequest, .text err⟩
          | .ok saved => ⟨StatusOK, .book saved⟩),
          ⟨((r.DB.WhereIDFirst E id).2.Save { bookModel with Title := some title }).2⟩) := by
  unfold Repo.UpdateTitle
  rw [if_neg hid]
  dsimp only
  rcases h : r.DB.WhereIDFirst E id with ⟨res, db⟩
  cases res with
  | error e => rfl
  | ok bookModel =>
    dsimp only
    rcases h2 : db.Save { bookModel with Title := some title } with ⟨res2, db2⟩
    cases res2 <;> rfl

/-! ## Successful requests and the schema -/

/-- What a successful lookup says about the store. -/
theorem GormDB.WhereIDFirst_ok {E : Engine} {db : GormDB} {id : String} {row : Row}
    (h : (db.WhereIDFirst E id).1 = .ok row) :
    db.nextFault = none ∧ ∃ k, E.intKey id = .ok k ∧
      db.store.rows.find? (fun r => decide ((r.ID : Int) = k)) = some row := by
  rw [GormDB.WhereIDFirst_fst] at h
  cases hn : db.nextFault with
  | some e => rw [hn] at h; simp at h
  | none =>
    rw [hn] at h
    dsimp only at h
    cases hk : E.intKey id with
    | error e => rw [hk] at h; simp at h
    | ok k =>
      rw [hk] at h
      dsimp only at h
      refine ⟨rfl, k, rfl, ?_⟩
      cases hfind : db.store.rows.find? (fun r => decide ((r.ID : Int) = k)) with
      | none => rw [hfind] at h; simp at h
      | some x =>
        rw [hfind] at h
        dsimp only at h
        rw [Except.ok.inj h]

/-- A creation that responds with 201 appended one row with the next
identifier, which no stored row had. -/
theorem Repo.CreateBook_success {r : Repo} {book : Book}
    (h : (r.DB.Create book).1 = .ok ()) :
    (r.CreateBook (.ok book)).1 = ⟨201, .created book⟩ ∧
    (r.CreateBook (.ok book)).2.DB.store =
      ⟨r.DB.store.rows ++
        [⟨r.DB.store.lastID + 1, book.Author, some book.Title, book.Publisher⟩],
        r.DB.store.lastID + 1⟩ ∧
    ∀ x ∈ r.DB.store.rows, x.ID ≠ r.DB.store.lastID + 1 := by
  rw [Repo.CreateBook_ok]
  obtain ⟨hres, hstore, -⟩ := GormDB.Create_eq r.DB book
  rw [h]
  dsimp only
  rw [hstore]
  rw [hres] at h
  cases hn : r.DB.nextFault with
  | some e => rw [hn] at h; simp at h
  | none =>
    rw [hn] at h
    dsimp only at h ⊢
    unfold Store.insertNext at h ⊢
    dsimp only at h ⊢
    by_cases hdup : (r.DB.store.rows.any fun x => x.ID == r.DB.store.lastID + 1) = true
    · rw [if_pos hdup] at h; simp at h
    · rw [if_neg hdup]
      refine ⟨rfl, rfl, ?_⟩
      intro x hx hxe
      apply hdup
      rw [List.any_eq_true]
      exact ⟨x, hx, by simp [hxe]⟩

/-- A creation responds with 201 only if its storage write succeeded. -/
theorem Repo.CreateBook_created {r : Repo} {book : Book}
    (h : (r.CreateBook (.ok book)).1.status = StatusCreated) :
    (r.DB.Create book).1 = .ok () := by
  rw [Repo.CreateBook_ok] at h
  cases hc : (r.DB.Create book).1 with
  | error e => rw [hc] at h; simp [StatusBadRequest, StatusCreated] at h
  | ok u => rfl

/-- A deletion that responds with 200 removed the rows its identifier
designates, and nothing else. -/
theorem Repo.DeleteBook_success {E : Engine} {r : Repo} {id : String}
    (h : (r.DeleteBook E id).1.status = StatusOK) :
    ∃ p, E.deleteCond id = .ok p ∧
      (r.DeleteBook E id).2.DB.store =
        { r.DB.store with rows := r.DB.store.rows.filter fun x => !p x } := by
  have hid : id ≠ "" := by
    rintro rfl
    simp [Repo.DeleteBook, StatusBadRequest, StatusOK] at h
  rw [Repo.DeleteBook_nonempty E r id hid] at h ⊢
  obtain ⟨hres, hstore, -⟩ := GormDB.Delete_eq E r.DB id
  dsimp only at h ⊢
  rw [hstore]
  rw [hres] at h
  cases hn : r.DB.nextFault with
  | some e => rw [hn] at h; simp [StatusBadRequest, StatusOK] at h
  | none =>
    rw [hn] at h
    dsimp only at h ⊢
    cases hc : E.deleteCond id with
    | error e => rw [hc] at h; simp [StatusBadRequest, StatusOK] at h
    | ok p => exact ⟨p, rfl, rfl⟩

/-- Appending a row with the next identifier keeps the schema satisfied. -/
theorem Store.Valid.insert {s : Store} (hv : s.Valid) (author : String)
    (title : Option String) (publisher : String) :
    Store.Valid ⟨s.rows ++ [⟨s.lastID + 1, author, title, publisher⟩], s.lastID + 1⟩ := by
  constructor
  · dsimp only
    rw [List.map_append, List.nodup_append]
    refine ⟨hv.1, by simp, ?_⟩
    intro a ha hb
    simp only [List.map_cons, List.map_nil, List.mem_singleton] at hb
    obtain ⟨x, hx, rfl⟩ := List.mem_map.mp ha
    have := (hv.2 x hx).2
    omega
  · intro x hx
    dsimp only at hx ⊢
    rcases List.mem_append.mp hx with hx | hx
    · have := hv.2 x hx
      omega
    · rw [List.mem_singleton.mp hx]
      dsimp only
      omega

/-- Removing rows keeps the schema satisfied. -/
theorem Store.Valid.filter {s : Store} (hv : s.Valid) (p : Row → Bool) :
    Store.Valid { s with rows := s.rows.filter p } :=
  ⟨hv.1.sublist ((List.filter_sublist _).map _),
    fun x hx => hv.2 x (List.mem_of_mem_filter hx)⟩

/-- Drawing the next identifier keeps the schema satisfied, whether or not
the insert goes through. -/
theorem Store.Valid.insertNext {s : Store} (hv : s.Valid) (author : String)
    (title : Option String) (publisher : String) :
    (s.insertNext author title publisher).2.Valid := by
  unfold Store.insertNext
  dsimp only
  split
  · exact ⟨hv.1, fun x hx => ⟨(hv.2 x hx).1, Nat.le_succ_of_le (hv.2 x hx).2⟩⟩
  · exact hv.insert author title publisher

/-- Rewriting the rows that carry the key of `row` keeps the schema
satisfied. -/
theorem Store.Valid.update {s : Store} (hv : s.Valid) (row : Row) :
    Store.Valid { s with rows := s.rows.map fun x => if x.ID = row.ID then row else x } := by
  have hid : ∀ x : Row, (if x.ID = row.ID then row else x).ID = x.ID := by
    intro x
    by_cases hx : x.ID = row.ID
    · rw [if_pos hx, hx]
    · rw [if_neg hx]
  constructor
  · dsimp only
    rw [List.map_map]
    have : (Row.ID ∘ fun x => if x.ID = row.ID then row else x) = Row.ID := funext hid
    rw [this]
    exact hv.1
  · intro x hx
    dsimp only at hx ⊢
    obtain ⟨y, hy, rfl⟩ := List.mem_map.mp hx
    rw [hid y]
    exact hv.2 y hy

/-- The schema is an invariant of the service: whatever the request and its
outcome, a store that satisfies it still does afterwards. -/
theorem Repo.SetupRoutes_valid (E : Engine) (r : Repo) (req : Request)
    (hv : r.DB.store.Valid) : (r.SetupRoutes E req).2.DB.store.Valid := by
  cases req with
  | CreateBooks body =>
    cases body with
    | error e => exact hv
    | ok book =>
      simp only [Repo.SetupRoutes]
      rw [Repo.CreateBook_ok]
      dsimp only
      rw [(GormDB.Create_eq r.DB book).2.1]
      cases r.DB.nextFault with
      | some e => exact hv
      | none => exact hv.insertNext _ _ _
  | DeleteBooks id =>
    simp only [Repo.SetupRoutes]
    by_cases hid : id = ""
    · subst hid; exact hv
    · rw [Repo.DeleteBook_nonempty E r id hid]
      dsimp only
      rw [(GormDB.Delete_eq E r.DB id).2.1]
      cases r.DB.nextFault with
      | some e => exact hv
      | none =>
        dsimp only
        cases E.deleteCond id with
        | error e => exact hv
        | ok p => exact hv.filter _
  | GetBooksID id =>
    simp only [Repo.SetupRoutes]
    by_cases hid : id = ""
    · subst hid; exact hv
    · rw [Repo.GetBookByID_nonempty E r id hid]
      dsimp only
      rw [(GormDB.WhereIDFirst_frame E r.DB id).1]
      exact hv
  | Books =>
    simp only [Repo.SetupRoutes]
    rw [Repo.GetBooks_eq]
    dsimp only
    rw [(GormDB.Find_eq r.DB).2.1]
    exact hv
  | UpdateTitle id body =>
    simp only [Repo.SetupRoutes]
    by_cases hid : id = ""
    · subst hid; exact hv
    · cases body with
      | error e => rw [Repo.UpdateTitle_unparsed E r id e hid]; exact hv
      | ok title =>
        rw [Repo.UpdateTitle_nonempty E r id title hid]
        obtain ⟨hs1, -⟩ := GormDB.WhereIDFirst_frame E r.DB id
        cases hfirst : (r.DB.WhereIDFirst E id).1 with
        | error e =>
          dsimp only
          rw [hs1]
          exact hv
        | ok old =>
          dsimp only
          obtain ⟨-, k, -, hfind⟩ := GormDB.WhereIDFirst_ok hfirst
          have hmem : old ∈ r.DB.store.rows := List.mem_of_find?_eq_some hfind
          have hpos : old.ID ≠ 0 := Nat.pos_iff_ne_zero.mp (hv.2 old hmem).1
          obtain ⟨-, hstore⟩ := GormDB.Save_update (r.DB.WhereIDFirst E id).2
            { old with Title := some title } hpos ⟨old, hs1 ▸ hmem, rfl⟩
          rw [hstore, hs1]
          cases (r.DB.WhereIDFirst E id).2.nextFault with
          | some e => exact hv
          | none => exact hv.update _
  | GetBooksByID =>
    simp only [Repo.SetupRoutes]
    rw [Repo.GetBooksByID_eq]
    dsimp only
    rw [(GormDB.WhereGt5OrderDescFind_eq r.DB).2.1]
    exact hv

/-- The condition of a deletion by numeral is the comparison with the key the
engine reads. -/
theorem Engine.deleteCond_byKey {E : Engine} {id : String} {p : Row → Bool}
    (hnum : (Atoi id).isSome = true) (hc : E.deleteCond id = .ok p) :
    p = E.identifies id := by
  unfold Engine.deleteCond at hc
  rw [if_pos hnum] at hc
  funext x
  unfold Engine.identifies
  cases hk : E.intKey id with
  | error e => rw [hk] at hc; exact Except.noConfusion hc
  | ok k =>
    rw [hk] at hc
    rw [← Except.ok.inj hc]

/-- After successful creations and deletions by numeral the store holds the
ledger, and still satisfies the schema. -/
theorem Repo.serve_ledger (E : Engine) (ops : List Op) :
    ∀ (r r1 : Repo), r.DB.store.Valid → ops.all Op.byKey = true → r.serve E ops = some r1 →
      r1.DB.store.rows = ledger E r.DB.store.lastID r.DB.store.rows ops ∧
        r1.DB.store.Valid := by
  induction ops with
  | nil =>
    intro r r1 hv _ h
    simp only [Repo.serve, Option.some.injEq] at h
    subst h
    exact ⟨rfl, hv⟩
  | cons op ops ih =>
    intro r r1 hv hkey h
    rw [List.all_cons, Bool.and_eq_true] at hkey
    cases op with
    | Create book =>
      simp only [Repo.serve] at h
      split at h
      · rename_i hst
        obtain ⟨-, hstore, -⟩ := Repo.CreateBook_success (Repo.CreateBook_created hst)
        have hv2 : (r.CreateBook (.ok book)).2.DB.store.Valid := by
          rw [hstore]
          exact hv.insert _ _ _
        obtain ⟨hrows, hv1⟩ := ih _ r1 hv2 hkey.2 h
        refine ⟨?_, hv1⟩
        rw [hrows, hstore]
        rfl
      · exact absurd h (by simp)
    | Delete id =>
      simp only [Repo.serve] at h
      split at h
      · rename_i hst
        obtain ⟨p, hc, hstore⟩ := Repo.DeleteBook_success hst
        have hp : p = E.identifies id := Engine.deleteCond_byKey hkey.1 hc
        subst hp
        have hv2 : (r.DeleteBook E id).2.DB.store.Valid := by
          rw [hstore]
          exact hv.filter _
        obtain ⟨hrows, hv1⟩ := ih _ r1 hv2 hkey.2 h
        refine ⟨?_, hv1⟩
        rw [hrows, hstore]
        rfl
      · exact absurd h (by simp)

/-! ## Empty identifiers -/

/-- C1: with the empty string as path identifier, `DeleteBook`, `GetBookByID`
and `UpdateTitle` (whatever the outcome of parsing its body) respond with
status 400 and hand back the repository exactly as it was: no storage call is
recorded, no transport outcome consumed, and the store is untouched. -/
theorem empty_identifier_is_rejected_before_storage (E : Engine) (r : Repo)
    (body : Except String String) :
    ((r.DeleteBook E "").1.status = 400 ∧ (r.DeleteBook E "").2 = r) ∧
    ((r.GetBookByID E "").1.status = 400 ∧ (r.GetBookByID E "").2 = r) ∧
    ((r.UpdateTitle E "" body).1.status = 400 ∧ (r.UpdateTitle E "" body).2 = r) :=
  ⟨⟨rfl, rfl⟩, ⟨rfl, rfl⟩, ⟨rfl, rfl⟩⟩

/-! ## Delete, then look up -/

/-- C5: whenever `DeleteBook` on an identifier responds with 200, a
`GetBookByID` on the same identifier issued on the resulting repository
responds with 400. -/
theorem lookup_after_delete_fails (E : Engine) (r : Repo) (id : String)
    (h : (r.DeleteBook E id).1.status = 200) :
    ((r.DeleteBook E id).2.GetBookByID E id).1.status = 400 := by
  by_cases hid : id = ""
  · subst hid; rfl
  · rw [Repo.GetBookByID_nonempty E _ id hid]
    rw [Repo.DeleteBook_nonempty E r id hid] at h ⊢
    dsimp only at h ⊢
    obtain ⟨hres, hstore, -⟩ := GormDB.Delete_eq E r.DB id
    rw [GormDB.WhereIDFirst_fst]
    cases hf : (r.DB.Delete E id).2.nextFault with
    | some e => rfl
    | none =>
      dsimp only
      cases hk : E.intKey id with
      | error e => rfl
      | ok k =>
        dsimp only
        rw [hstore]
        rw [hres] at h
        cases hn : r.DB.nextFault with
        | some e => rw [hn] at h; simp [StatusBadRequest] at h
        | none =>
          rw [hn] at h
          dsimp only at h ⊢
          cases hc : E.deleteCond id with
          | error e => rw [hc] at h; simp [StatusBadRequest] at h
          | ok p =>
            dsimp only
            have hp : p = fun x => decide ((x.ID : Int) = k) := by
              unfold Engine.deleteCond at hc
              split at hc
              · rw [hk] at hc
                exact (Except.ok.inj hc).symm
              · obtain ⟨e, he⟩ := E.typed id k hk
                rw [he] at hc
                exact absurd hc (by simp)
            subst hp
            have : (r.DB.store.rows.filter fun x => !decide ((x.ID : Int) = k)).find?
                (fun x => decide ((x.ID : Int) = k)) = none := by
              rw [List.find?_eq_none]
              intro x hx
              have := (List.mem_filter.mp hx).2
              simpa using this
            rw [this]
            rfl

/-- Deleting book 6 of the sample repository succeeds, and the lookup that
follows fails. -/
theorem lookup_after_delete_fails_witness :
    (sampleRepo.DeleteBook Engine.decimal "6").1.status = 200 ∧
    ((sampleRepo.DeleteBook Engine.decimal "6").2.GetBookByID Engine.decimal "6").1.status
      = 400 :=
  ⟨by decide, lookup_after_delete_fails Engine.decimal sampleRepo "6" (by decide)⟩

/-! ## Creation -/

/-- C2, as stated, fails: on the empty store the write of
`{author: "A", title: "T", publisher: "P"}` succeeds, yet the body of the
response carries no identifier at all, hence no positive one. -/
theorem created_body_carries_no_identifier :
    (emptyRepo.DB.Create ⟨"A", "T", "P"⟩).1 = .ok () ∧
    (emptyRepo.CreateBook (.ok ⟨"A", "T", "P"⟩)).1.status = 201 ∧
    ¬ ∃ n : Nat, 0 < n ∧
      (emptyRepo.CreateBook (.ok ⟨"A", "T", "P"⟩)).1.body.identifier = some n := by
  refine ⟨by decide, by decide, ?_⟩
  rintro ⟨n, -, h⟩
  have h0 : (emptyRepo.CreateBook (.ok ⟨"A", "T", "P"⟩)).1.body.identifier = none := by decide
  rw [h0] at h
  exact Option.noConfusion h

/-- C2, amended: when the storage write succeeds, `CreateBook` responds with
201 and a body whose author, title and publisher are those of the request;
the body carries no identifier; the store gains exactly one row, appended,
with the request's fields and an identifier that is positive, follows every
value the sequence handed out before, and is the identifier of no row stored
before. -/
theorem create_echoes_fields_and_stores_fresh_row (r : Repo) (book : Book)
    (h : (r.DB.Create book).1 = .ok ()) :
    (r.CreateBook (.ok book)).1 = ⟨201, .created book⟩ ∧
    (r.CreateBook (.ok book)).1.body.identifier = none ∧
    (r.CreateBook (.ok book)).2.DB.store.rows =
      r.DB.store.rows ++
        [⟨r.DB.store.lastID + 1, book.Author, some book.Title, book.Publisher⟩] ∧
    (r.CreateBook (.ok book)).2.DB.store.lastID = r.DB.store.lastID + 1 ∧
    0 < r.DB.store.lastID + 1 ∧
    ∀ x ∈ r.DB.store.rows, x.ID ≠ r.DB.store.lastID + 1 := by
  obtain ⟨hresp, hstore, hfresh⟩ := Repo.CreateBook_success h
  rw [hresp, hstore]
  exact ⟨rfl, rfl, rfl, rfl, Nat.succ_pos _, hfresh⟩

/-- On the sample repository the write succeeds and the new row gets
identifier 10. -/
theorem create_echoes_fields_and_stores_fresh_row_witness :
    (sampleRepo.DB.Create ⟨"A", "T", "P"⟩).1 = .ok () ∧
    (sampleRepo.CreateBook (.ok ⟨"A", "T", "P"⟩)).1 = ⟨201, .created ⟨"A", "T", "P"⟩⟩ ∧
    (sampleRepo.CreateBook (.ok ⟨"A", "T", "P"⟩)).2.DB.store.rows =
      sampleRepo.DB.store.rows ++ [⟨10, "A", some "T", "P"⟩] :=
  have h := create_echoes_fields_and_stores_fresh_row sampleRepo ⟨"A", "T", "P"⟩ (by decide)
  ⟨by decide, h.1, h.2.2.1⟩

/-! ## Identifiers that name no stored entity -/

/-- C3, as stated, fails: "7" names none of the books 1, 6 and 9 of the
sample repository, and `DeleteBook` on it responds with 200, not with a 4xx
status. -/
theorem delete_of_absent_identifier_responds_ok :
    (∀ row ∈ sampleRepo.DB.store.rows, Engine.decimal.identifies "7" row = false) ∧
    (sampleRepo.DeleteBook Engine.decimal "7").1.status = 200 ∧
    ¬ (400 ≤ (sampleRepo.DeleteBook Engine.decimal "7").1.status ∧
        (sampleRepo.DeleteBook Engine.decimal "7").1.status < 500) := by
  decide

/-- C3, amended: for an identifier that names no stored entity,
`GetBookByID` responds with 400.  `DeleteBook` responds with 400 exactly when
the identifier is empty or the storage call reports an error, and with 200
exactly when the identifier is not empty and the storage call reports none;
when the identifier is a numeral the engine accepts and the call reaches the
engine, it responds with 200 and leaves the store as it was. -/
theorem absent_identifier_lookup_fails_delete_is_no_error (E : Engine) (r : Repo) (id : String)
    (habs : ∀ row ∈ r.DB.store.rows, E.identifies id row = false) :
    (r.GetBookByID E id).1.status = 400 ∧
    ((r.DeleteBook E id).1.status = 400 ↔
      (id = "" ∨ ∃ e, (r.DB.Delete E id).1 = .error e)) ∧
    ((r.DeleteBook E id).1.status = 200 ↔
      (id ≠ "" ∧ (r.DB.Delete E id).1 = .ok ())) ∧
    ((Atoi id).isSome = true → (∃ k, E.intKey id = .ok k) → r.DB.nextFault = none →
      (r.DeleteBook E id).1 = ⟨200, .msg "Book deleted successfully"⟩ ∧
      (r.DeleteBook E id).2.DB.store = r.DB.store) := by
  refine ⟨?_, ?_, ?_, ?_⟩
  · by_cases hid : id = ""
    · subst hid; rfl
    · rw [Repo.GetBookByID_nonempty E r id hid, GormDB.WhereIDFirst_fst]
      dsimp only
      cases r.DB.nextFault with
      | some e => rfl
      | none =>
        dsimp only
        cases hk : E.intKey id with
        | error e => rfl
        | ok k =>
          dsimp only
          have : r.DB.store.rows.find? (fun x => decide ((x.ID : Int) = k)) = none := by
            rw [List.find?_eq_none]
            intro x hx
            have := habs x hx
            unfold Engine.identifies at this
            rw [hk] at this
            simpa using this
          rw [this]
          rfl
  · by_cases hid : id = ""
    · subst hid
      exact ⟨fun _ => Or.inl rfl, fun _ => rfl⟩
    · rw [Repo.DeleteBook_nonempty E r id hid]
      dsimp only
      cases (r.DB.Delete E id).1 with
      | error e => exact ⟨fun _ => Or.inr ⟨e, rfl⟩, fun _ => rfl⟩
      | ok u =>
        refine ⟨fun h => ?_, fun h => ?_⟩
        · simp [StatusOK] at h
        · rcases h with h | ⟨e, h⟩
          · exact absurd h hid
          · exact Except.noConfusion h
  · by_cases hid : id = ""
    · subst hid
      refine ⟨fun h => ?_, fun h => absurd rfl h.1⟩
      simp [Repo.DeleteBook, StatusBadRequest] at h
    · rw [Repo.DeleteBook_nonempty E r id hid]
      dsimp only
      cases (r.DB.Delete E id).1 with
      | error e =>
        refine ⟨fun h => ?_, fun h => Except.noConfusion h.2⟩
        simp [StatusBadRequest] at h
      | ok u => exact ⟨fun _ => ⟨hid, rfl⟩, fun _ => rfl⟩
  · rintro hnum ⟨k, hk⟩ hn
    have hid : id ≠ "" := by
      rintro rfl
      exact absurd hnum (by decide)
    rw [Repo.DeleteBook_nonempty E r id hid]
    obtain ⟨hres, hstore, -⟩ := GormDB.Delete_eq E r.DB id
    have hc : E.deleteCond id = .ok fun x => decide ((x.ID : Int) = k) := by
      unfold Engine.deleteCond
      rw [if_pos hnum, hk]
    rw [hn, hc] at hres hstore
    dsimp only at hres hstore ⊢
    rw [hres, hstore]
    refine ⟨rfl, ?_⟩
    have : (r.DB.store.rows.filter fun x => !decide ((x.ID : Int) = k)) = r.DB.store.rows := by
      rw [List.filter_eq_self]
      intro x hx
      have := habs x hx
      unfold Engine.identifies at this
      rw [hk] at this
      simpa using this
    rw [this]

/-- On the sample repository "7" names no book: the lookup responds with 400,
the deletion with 200 and an unchanged store. -/
theorem absent_identifier_lookup_fails_delete_is_no_error_witness :
    (∀ row ∈ sampleRepo.DB.store.rows, Engine.decimal.identifies "7" row = false) ∧
    (sampleRepo.GetBookByID Engine.decimal "7").1.status = 400 ∧
    (sampleRepo.DeleteBook Engine.decimal "7").2.DB.store = sampleRepo.DB.store :=
  have h := absent_identifier_lookup_fails_delete_is_no_error Engine.decimal sampleRepo "7"
    (by decide)
  ⟨by decide, h.1, (h.2.2.2 (by decide) ⟨7, by decide⟩ (by decide)).2⟩

/-! ## Update, then look up -/

/-- C4, as stated, fails: on a store that satisfies the schema,
`UpdateTitle` on "6" responds with 200, and the `GetBookByID` issued on the
resulting repository, its storage read failing in transit, responds with 400
and the driver's error text. -/
theorem lookup_after_update_can_fail :
    flakyRepo.DB.store.Valid ∧
    (flakyRepo.UpdateTitle Engine.decimal "6" (.ok "New")).1.status = 200 ∧
    ((flakyRepo.UpdateTitle Engine.decimal "6" (.ok "New")).2.GetBookByID Engine.decimal "6").1
      = ⟨400, .text "connection refused"⟩ := by
  decide

/-- C4, amended: on a store that satisfies the schema, if `UpdateTitle`
with title `title` responds with 200 and the storage read of the
`GetBookByID` issued next on the same identifier reaches the engine, then
that `GetBookByID` responds with 200 and the entity the same lookup returned
before the update, with its title replaced by `title` and its identifier,
author and publisher as they were. -/
theorem lookup_after_update_returns_new_title (E : Engine) (r : Repo) (id title : String)
    (hv : r.DB.store.Valid)
    (h : (r.UpdateTitle E id (.ok title)).1.status = 200)
    (hreach : (r.UpdateTitle E id (.ok title)).2.DB.nextFault = none) :
    ∃ old : Row, (r.GetBookByID E id).1 = ⟨200, .book old⟩ ∧
      ((r.UpdateTitle E id (.ok title)).2.GetBookByID E id).1 =
        ⟨200, .book { old with Title := some title }⟩ := by
  have hid : id ≠ "" := by
    rintro rfl
    simp [Repo.UpdateTitle, StatusBadRequest] at h
  rw [Repo.UpdateTitle_nonempty E r id title hid] at h hreach ⊢
  rw [Repo.GetBookByID_nonempty E r id hid]
  cases hfirst : (r.DB.WhereIDFirst E id).1 with
  | error e => rw [hfirst] at h; simp [StatusBadRequest] at h
  | ok old =>
    rw [hfirst] at h hreach
    dsimp only at h hreach ⊢
    refine ⟨old, rfl, ?_⟩
    obtain ⟨-, k, hk, hfind⟩ := GormDB.WhereIDFirst_ok hfirst
    have hmem : old ∈ r.DB.store.rows := List.mem_of_find?_eq_some hfind
    have hkey : (old.ID : Int) = k := by
      have := List.find?_some hfind
      simpa using this
    have hpos : old.ID ≠ 0 := Nat.pos_iff_ne_zero.mp (hv.2 old hmem).1
    obtain ⟨hs1, -⟩ := GormDB.WhereIDFirst_frame E r.DB id
    obtain ⟨hsave, hstore⟩ := GormDB.Save_update (r.DB.WhereIDFirst E id).2
      { old with Title := some title } hpos ⟨old, hs1 ▸ hmem, rfl⟩
    cases hn : (r.DB.WhereIDFirst E id).2.nextFault with
    | some e =>
      rw [hn] at hsave
      rw [hsave] at h
      simp [StatusBadRequest] at h
    | none =>
      rw [hn] at hsave hstore
      dsimp only at hsave hstore
      rw [Repo.GetBookByID_nonempty E _ id hid]
      dsimp only
      rw [GormDB.WhereIDFirst_fst, hreach, hk, hstore, hs1]
      dsimp only
      have hfind2 : (r.DB.store.rows.map fun x =>
            if x.ID = old.ID then { old with Title := some title } else x).find?
          (fun x => decide ((x.ID : Int) = k)) = some { old with Title := some title } := by
        rw [List.find?_map]
        have hcomp : ((fun x : Row => decide ((x.ID : Int) = k)) ∘ fun x =>
            if x.ID = old.ID then { old with Title := some title } else x) =
            fun x : Row => decide ((x.ID : Int) = k) := by
          funext x
          by_cases hx : x.ID = old.ID
          · simp [hx, hkey]
          · simp [hx]
        rw [hcomp, hfind]
        simp
      rw [hfind2]
      rfl

/-- On the sample repository the title of book 6 is updated and read back. -/
theorem lookup_after_update_returns_new_title_witness :
    sampleRepo.DB.store.Valid ∧
    (sampleRepo.UpdateTitle Engine.decimal "6" (.ok "New")).1.status = 200 ∧
    ∃ old : Row, (sampleRepo.GetBookByID Engine.decimal "6").1 = ⟨200, .book old⟩ ∧
      ((sampleRepo.UpdateTitle Engine.decimal "6" (.ok "New")).2.GetBookByID
          Engine.decimal "6").1 = ⟨200, .book { old with Title := some "New" }⟩ :=
  ⟨by decide, by decide,
    lookup_after_update_returns_new_title Engine.decimal sampleRepo "6" "New"
      (by decide) (by decide) (by decide)⟩

/-! ## The filtered, ordered listing -/

/-- C6: on a store that satisfies the schema and on which the storage read
reaches the engine, `GetBooksByID` responds with 200 and a list in which each
stored entity with identifier greater than 5 occurs exactly once, no other
entity occurs, and identifiers strictly decrease from each element to every
later one. -/
theorem filtered_listing_is_exact_and_descending (r : Repo) (hv : r.DB.store.Valid)
    (hreach : r.DB.nextFault = none) :
    ∃ L : List Row, r.GetBooksByID.1 = ⟨200, .books L⟩ ∧
      (∀ x, L.count x = if x ∈ r.DB.store.rows ∧ 5 < x.ID then 1 else 0) ∧
      L.Pairwise (fun a b => b.ID < a.ID) := by
  haveI : IsTotal Row (fun a b => b.ID ≤ a.ID) := ⟨fun a b => Nat.le_total b.ID a.ID⟩
  haveI : IsTrans Row (fun a b => b.ID ≤ a.ID) := ⟨fun _ _ _ hab hbc => Nat.le_trans hbc hab⟩
  obtain ⟨hres, -, -⟩ := GormDB.WhereGt5OrderDescFind_eq r.DB
  rw [hreach] at hres
  dsimp only at hres
  refine ⟨(r.DB.store.rows.filter fun x => 5 < x.ID).insertionSort fun a b => b.ID ≤ a.ID,
    ?_, ?_, ?_⟩
  · rw [Repo.GetBooksByID_eq, hres]; rfl
  · have hperm := List.perm_insertionSort (fun a b : Row => b.ID ≤ a.ID)
      (r.DB.store.rows.filter fun x => 5 < x.ID)
    have hnd : (r.DB.store.rows.filter fun x => 5 < x.ID).Nodup :=
      (List.Nodup.of_map _ hv.1).filter _
    intro x
    rw [hperm.count_eq, List.count_eq_of_nodup hnd]
    simp [List.mem_filter]
  · have hperm := List.perm_insertionSort (fun a b : Row => b.ID ≤ a.ID)
      (r.DB.store.rows.filter fun x => 5 < x.ID)
    have hsorted := List.sorted_insertionSort (fun a b : Row => b.ID ≤ a.ID)
      (r.DB.store.rows.filter fun x => 5 < x.ID)
    have hnd : ((r.DB.store.rows.filter fun x => 5 < x.ID).map Row.ID).Nodup :=
      hv.1.sublist ((List.filter_sublist _).map _)
    have hnd2 : (((r.DB.store.rows.filter fun x => 5 < x.ID).insertionSort
        fun a b => b.ID ≤ a.ID).map Row.ID).Nodup :=
      (hperm.map Row.ID).nodup_iff.mpr hnd
    have hne : ((r.DB.store.rows.filter fun x => 5 < x.ID).insertionSort
        fun a b => b.ID ≤ a.ID).Pairwise (fun a b => a.ID ≠ b.ID) := by
      unfold List.Nodup at hnd2
      rw [List.pairwise_map] at hnd2
      exact hnd2
    unfold List.Sorted at hsorted
    exact (hsorted.and hne).imp fun ⟨hle, hne⟩ => Nat.lt_of_le_of_ne hle (Ne.symm hne)

/-- On the sample repository the listing is book 9 followed by book 6. -/
theorem filtered_listing_is_exact_and_descending_witness :
    sampleRepo.DB.store.Valid ∧ sampleRepo.DB.nextFault = none ∧
    sampleRepo.GetBooksByID.1 =
      ⟨200, .books [⟨9, "c", some "u", "r"⟩, ⟨6, "b", none, "q"⟩]⟩ ∧
    ∃ L : List Row, sampleRepo.GetBooksByID.1 = ⟨200, .books L⟩ ∧
      (∀ x, L.count x = if x ∈ sampleRepo.DB.store.rows ∧ 5 < x.ID then 1 else 0) ∧
      L.Pairwise (fun a b => b.ID < a.ID) :=
  ⟨by decide, by decide, by decide,
    filtered_listing_is_exact_and_descending sampleRepo (by decide) (by decide)⟩

/-! ## The full listing after creations and deletions -/

/-- C7, as stated, fails, in two ways.  After two successful creations on the
empty store, a `DeleteBook` whose identifier is the text `1=1`, which names no
entity, responds with 200 on an engine that accepts that text as a condition,
and `GetBooks` then responds with 200 and the empty list although both
entities were created and neither was deleted.  And after one successful
creation, `GetBooks`, its storage read failing in transit, responds with 400
and the driver's error text. -/
theorem listing_can_miss_live_entities_or_fail :
    (emptyRepo.DB.store = Store.empty ∧
      (∀ row ∈ ([⟨1, "A", some "T", "P"⟩, ⟨2, "B", some "U", "Q"⟩] : List Row),
        Engine.tautology.identifies "1=1" row = false) ∧
      ledger Engine.tautology 0 []
        [.Create ⟨"A", "T", "P"⟩, .Create ⟨"B", "U", "Q"⟩, .Delete "1=1"] =
        [⟨1, "A", some "T", "P"⟩, ⟨2, "B", some "U", "Q"⟩] ∧
      ∃ r, emptyRepo.serve Engine.tautology
          [.Create ⟨"A", "T", "P"⟩, .Create ⟨"B", "U", "Q"⟩, .Delete "1=1"] = some r ∧
        r.DB.nextFault = none ∧ r.GetBooks.1 = ⟨200, .books []⟩) ∧
    (flakyEmptyRepo.DB.store = Store.empty ∧
      ∃ r, flakyEmptyRepo.serve Engine.decimal [.Create ⟨"A", "T", "P"⟩] = some r ∧
        r.GetBooks.1 = ⟨400, .text "connection refused"⟩) :=
  ⟨⟨rfl, by decide, by decide, _, rfl, by decide, by decide⟩, ⟨rfl, _, rfl, by decide⟩⟩

/-- C7, amended: in a repository reached from the empty store by successful
creations and successful deletions whose identifiers are numerals, when the
storage read reaches the engine `GetBooks` responds with 200 and a list in
which every entity created and not yet deleted occurs exactly once and no
other entity occurs. -/
theorem listing_holds_the_live_entities_once (E : Engine) (r0 r : Repo) (ops : List Op)
    (h0 : r0.DB.store = Store.empty) (hkey : ops.all Op.byKey = true)
    (hrun : r0.serve E ops = some r) (hreach : r.DB.nextFault = none) :
    ∃ L : List Row, r.GetBooks.1 = ⟨200, .books L⟩ ∧
      ∀ x, L.count x = if x ∈ ledger E 0 [] ops then 1 else 0 := by
  have hv0 : r0.DB.store.Valid := by
    rw [h0]
    exact ⟨List.nodup_nil, fun x hx => absurd hx (List.not_mem_nil x)⟩
  obtain ⟨hrows, hv⟩ := Repo.serve_ledger E ops r0 r hv0 hkey hrun
  rw [h0] at hrows
  obtain ⟨hres, -, -⟩ := GormDB.Find_eq r.DB
  rw [hreach] at hres
  dsimp only at hres
  refine ⟨r.DB.store.rows, ?_, ?_⟩
  · rw [Repo.GetBooks_eq, hres]; rfl
  · intro x
    rw [List.count_eq_of_nodup (List.Nodup.of_map _ hv.1), hrows]
    rfl

/-- Two creations and the deletion of the first by its numeral: the listing
holds the second entity alone. -/
theorem listing_holds_the_live_entities_once_witness :
    emptyRepo.DB.store = Store.empty ∧
    ([.Create ⟨"A", "T", "P"⟩, .Create ⟨"B", "U", "Q"⟩, .Delete "1"] : List Op).all Op.byKey
      = true ∧
    ledger Engine.decimal 0 []
      [.Create ⟨"A", "T", "P"⟩, .Create ⟨"B", "U", "Q"⟩, .Delete "1"] =
      [⟨2, "B", some "U", "Q"⟩] ∧
    ∃ r, emptyRepo.serve Engine.decimal
        [.Create ⟨"A", "T", "P"⟩, .Create ⟨"B", "U", "Q"⟩, .Delete "1"] = some r ∧
      r.DB.nextFault = none ∧
      ∃ L : List Row, r.GetBooks.1 = ⟨200, .books L⟩ ∧
        ∀ x, L.count x = if x ∈ ledger Engine.decimal 0 []
          [.Create ⟨"A", "T", "P"⟩, .Create ⟨"B", "U", "Q"⟩, .Delete "1"] then 1 else 0 :=
  ⟨rfl, by decide, by decide, _, rfl, by decide,
    listing_holds_the_live_entities_once Engine.decimal emptyRepo _ _ rfl (by decide) rfl
      (by decide)⟩

/-! ## Error responses -/

/-- C8: every error a handler can hit is answered with a client-error status
and the error's text as body.  `CreateBook` answers 422 to a body that does
not parse and 400 to a failed storage write; `DeleteBook`, `GetBooks`,
`GetBookByID`, `UpdateTitle` and `GetBooksByID` answer 400 to a missing
identifier, to a body that does not parse and to a failed storage call.  No
response has a status other than 200, 201, 400 and 422, and a response with
status 400 or 422 always carries an error text. -/
theorem errors_are_answered_with_client_error (E : Engine) (r : Repo) :
    (∀ e, (r.CreateBook (.error e)).1 = ⟨422, .text e⟩) ∧
    (∀ book e, (r.DB.Create book).1 = .error e →
      (r.CreateBook (.ok book)).1 = ⟨400, .text e⟩) ∧
    (r.DeleteBook E "").1 = ⟨400, .text "id is required"⟩ ∧
    (∀ id e, id ≠ "" → (r.DB.Delete E id).1 = .error e →
      (r.DeleteBook E id).1 = ⟨400, .text e⟩) ∧
    (∀ e, r.DB.Find.1 = .error e → r.GetBooks.1 = ⟨400, .text e⟩) ∧
    (r.GetBookByID E "").1 = ⟨400, .text "id is required"⟩ ∧
    (∀ id e, id ≠ "" → (r.DB.WhereIDFirst E id).1 = .error e →
      (r.GetBookByID E id).1 = ⟨400, .text e⟩) ∧
    (∀ body, (r.UpdateTitle E "" body).1 = ⟨400, .text "id is required"⟩) ∧
    (∀ id e, id ≠ "" → (r.UpdateTitle E id (.error e)).1 = ⟨400, .text e⟩) ∧
    (∀ id title e, id ≠ "" → (r.DB.WhereIDFirst E id).1 = .error e →
      (r.UpdateTitle E id (.ok title)).1 = ⟨400, .text e⟩) ∧
    (∀ id title row e, id ≠ "" → (r.DB.WhereIDFirst E id).1 = .ok row →
      ((r.DB.WhereIDFirst E id).2.Save { row with Title := some title }).1 = .error e →
      (r.UpdateTitle E id (.ok title)).1 = ⟨400, .text e⟩) ∧
    (∀ e, r.DB.WhereGt5OrderDescFind.1 = .error e → r.GetBooksByID.1 = ⟨400, .text e⟩) ∧
    (∀ req, (((r.SetupRoutes E req).1.status = 200 ∨ (r.SetupRoutes E req).1.status = 201) ∧
        ∀ e, (r.SetupRoutes E req).1.body ≠ .text e) ∨
      (((r.SetupRoutes E req).1.status = 400 ∨ (r.SetupRoutes E req).1.status = 422) ∧
        ∃ e, (r.SetupRoutes E req).1.body = .text e)) := by
  refine ⟨fun e => rfl, ?_, rfl, ?_, ?_, rfl, ?_, fun body => rfl, ?_, ?_, ?_, ?_, ?_⟩
  · intro book e h
    rw [Repo.CreateBook_ok, h]
    rfl
  · intro id e hid h
    rw [Repo.DeleteBook_nonempty E r id hid, h]
    rfl
  · intro e h
    rw [Repo.GetBooks_eq, h]
    rfl
  · intro id e hid h
    rw [Repo.GetBookByID_nonempty E r id hid, h]
    rfl
  · intro id e hid
    rw [Repo.UpdateTitle_unparsed E r id e hid]
  · intro id title e hid h
    rw [Repo.UpdateTitle_nonempty E r id title hid, h]
    rfl
  · intro id title row e hid h h2
    rw [Repo.UpdateTitle_nonempty E r id title hid, h]
    dsimp only
    rw [h2]
    rfl
  · intro e h
    rw [Repo.GetBooksByID_eq, h]
    rfl
  · intro req
    cases req with
    | CreateBooks body =>
      cases body with
      | error e => exact Or.inr ⟨Or.inr rfl, e, rfl⟩
      | ok book =>
        simp only [Repo.SetupRoutes]
        rw [Repo.CreateBook_ok]
        cases (r.DB.Create book).1 with
        | error e => exact Or.inr ⟨Or.inl rfl, e, rfl⟩
        | ok u => exact Or.inl ⟨Or.inr rfl, fun e h => Body.noConfusion h⟩
    | DeleteBooks id =>
      simp only [Repo.SetupRoutes]
      by_cases hid : id = ""
      · subst hid; exact Or.inr ⟨Or.inl rfl, _, rfl⟩
      · rw [Repo.DeleteBook_nonempty E r id hid]
        cases (r.DB.Delete E id).1 with
        | error e => exact Or.inr ⟨Or.inl rfl, e, rfl⟩
        | ok u => exact Or.inl ⟨Or.inl rfl, fun e h => Body.noConfusion h⟩
    | GetBooksID id =>
      simp only [Repo.SetupRoutes]
      by_cases hid : id = ""
      · subst hid; exact Or.inr ⟨Or.inl rfl, _, rfl⟩
      · rw [Repo.GetBookByID_nonempty E r id hid]
        cases (r.DB.WhereIDFirst E id).1 with
        | error e => exact Or.inr ⟨Or.inl rfl, e, rfl⟩
        | ok u => exact Or.inl ⟨Or.inl rfl, fun e h => Body.noConfusion h⟩
    | Books =>
      simp only [Repo.SetupRoutes]
      rw [Repo.GetBooks_eq]
      cases r.DB.Find.1 with
      | error e => exact Or.inr ⟨Or.inl rfl, e, rfl⟩
      | ok u => exact Or.inl ⟨Or.inl rfl, fun e h => Body.noConfusion h⟩
    | UpdateTitle id body =>
      simp only [Repo.SetupRoutes]
      by_cases hid : id = ""
      · subst hid; exact Or.inr ⟨Or.inl rfl, _, rfl⟩
      · cases body with
        | error e =>
          rw [Repo.UpdateTitle_unparsed E r id e hid]
          exact Or.inr ⟨Or.inl rfl, e, rfl⟩
        | ok title =>
          rw [Repo.UpdateTitle_nonempty E r id title hid]
          cases (r.DB.WhereIDFirst E id).1 with
          | error e => exact Or.inr ⟨Or.inl rfl, e, rfl⟩
          | ok row =>
            dsimp only
            cases ((r.DB.WhereIDFirst E id).2.Save { row with Title := some title }).1 with
            | error e => exact Or.inr ⟨Or.inl rfl, e, rfl⟩
            | ok u => exact Or.inl ⟨Or.inl rfl, fun e h => Body.noConfusion h⟩
    | GetBooksByID =>
      simp only [Repo.SetupRoutes]
      rw [Repo.GetBooksByID_eq]
      cases r.DB.WhereGt5OrderDescFind.1 with
      | error e => exact Or.inr ⟨Or.inl rfl, e, rfl⟩
      | ok u => exact Or.inl ⟨Or.inl rfl, fun e h => Body.noConfusion h⟩

/-- With the connection down, the storage write of a creation fails and
`CreateBook` answers 400 with the driver's text; the lookup of an update
fails and `UpdateTitle` answers likewise. -/
theorem errors_are_answered_with_client_error_witness :
    (downRepo.DB.Create ⟨"A", "T", "P"⟩).1 = .error "connection refused" ∧
    (downRepo.CreateBook (.ok ⟨"A", "T", "P"⟩)).1 = ⟨400, .text "connection refused"⟩ ∧
    "6" ≠ "" ∧ (downRepo.DB.WhereIDFirst Engine.decimal "6").1 = .error "connection refused" ∧
    (downRepo.UpdateTitle Engine.decimal "6" (.ok "New")).1
      = ⟨400, .text "connection refused"⟩ :=
  have h := errors_are_answered_with_client_error Engine.decimal downRepo
  ⟨by decide, h.2.1 _ _ (by decide), by decide, by decide,
    h.2.2.2.2.2.2.2.2.2.1 "6" "New" _ (by decide) (by decide)⟩

/-! ## Storage calls per request -/

/-- C9: a request that passes parameter extraction and validation makes
`CreateBook`, `DeleteBook`, `GetBooks`, `GetBookByID` and `GetBooksByID` add
exactly one storage call to the record, and makes `UpdateTitle` add the
lookup alone when the lookup fails, and the lookup followed by one save of
the row found, with the new title, when it succeeds. -/
theorem storage_calls_per_request (E : Engine) (r : Repo) (id : String) (book : Book)
    (title : String) (hid : id ≠ "") :
    (r.CreateBook (.ok book)).2.DB.log = r.DB.log ++ [.Create book] ∧
    (r.DeleteBook E id).2.DB.log = r.DB.log ++ [.Delete id] ∧
    r.GetBooks.2.DB.log = r.DB.log ++ [.Find] ∧
    (r.GetBookByID E id).2.DB.log = r.DB.log ++ [.WhereIDFirst id] ∧
    r.GetBooksByID.2.DB.log = r.DB.log ++ [.WhereGt5OrderDescFind] ∧
    (r.UpdateTitle E id (.ok title)).2.DB.log =
      match (r.DB.WhereIDFirst E id).1 with
      | .error _ => r.DB.log ++ [.WhereIDFirst id]
      | .ok row => r.DB.log ++ [.WhereIDFirst id, .Save { row with Title := some title }] := by
  refine ⟨?_, ?_, ?_, ?_, ?_, ?_⟩
  · rw [Repo.CreateBook_ok]
    exact (GormDB.Create_eq r.DB book).2.2
  · rw [Repo.DeleteBook_nonempty E r id hid]
    exact (GormDB.Delete_eq E r.DB id).2.2
  · rw [Repo.GetBooks_eq]
    exact (GormDB.Find_eq r.DB).2.2
  · rw [Repo.GetBookByID_nonempty E r id hid]
    exact (GormDB.WhereIDFirst_frame E r.DB id).2
  · rw [Repo.GetBooksByID_eq]
    exact (GormDB.WhereGt5OrderDescFind_eq r.DB).2.2
  · rw [Repo.UpdateTitle_nonempty E r id title hid]
    cases (r.DB.WhereIDFirst E id).1 with
    | error e => exact (GormDB.WhereIDFirst_frame E r.DB id).2
    | ok row =>
      dsimp only
      rw [GormDB.Save_log, (GormDB.WhereIDFirst_frame E r.DB id).2, List.append_assoc]
      rfl

/-- On the sample repository an update of book 6 records the lookup and the
save, a deletion one call. -/
theorem storage_calls_per_request_witness :
    "6" ≠ "" ∧
    (sampleRepo.DeleteBook Engine.decimal "6").2.DB.log = [.Delete "6"] ∧
    (sampleRepo.UpdateTitle Engine.decimal "6" (.ok "New")).2.DB.log =
      [.WhereIDFirst "6", .Save ⟨6, "b", some "New", "q"⟩] :=
  have h := storage_calls_per_request Engine.decimal sampleRepo "6" ⟨"A", "T", "P"⟩ "New"
    (by decide)
  ⟨by decide, h.2.1, h.2.2.2.2.2⟩

/-! ## Requests that leave the store as it was -/

/-- C10: an `UpdateTitle` request that is rejected because the identifier is
empty, because the body does not parse, or because the identifier names no
stored row leaves the store exactly as it was; `GetBooks`, `GetBookByID` and
`GetBooksByID` leave the store as it was on every request. -/
theorem rejected_update_and_reads_keep_the_store (E : Engine) (r : Repo) (id : String)
    (body : Except String String) :
    ((id = "" ∨ (∃ e, body = .error e) ∨
        (∀ row ∈ r.DB.store.rows, E.identifies id row = false)) →
      (r.UpdateTitle E id body).2.DB.store = r.DB.store) ∧
    r.GetBooks.2.DB.store = r.DB.store ∧
    (r.GetBookByID E id).2.DB.store = r.DB.store ∧
    r.GetBooksByID.2.DB.store = r.DB.store := by
  refine ⟨?_, ?_, ?_, ?_⟩
  · intro h
    by_cases hid : id = ""
    · subst hid; rfl
    · cases body with
      | error e => rw [Repo.UpdateTitle_unparsed E r id e hid]
      | ok title =>
        rcases h with h | ⟨e, h⟩ | h
        · exact absurd h hid
        · exact Except.noConfusion h
        · have hnone : ∃ e, (r.DB.WhereIDFirst E id).1 = .error e := by
            rw [GormDB.WhereIDFirst_fst]
            cases r.DB.nextFault with
            | some e => exact ⟨e, rfl⟩
            | none =>
              dsimp only
              cases hk : E.intKey id with
              | error e => exact ⟨e, rfl⟩
              | ok k =>
                dsimp only
                have : r.DB.store.rows.find? (fun x => decide ((x.ID : Int) = k)) = none := by
                  rw [List.find?_eq_none]
                  intro x hx
                  have := h x hx
                  unfold Engine.identifies at this
                  rw [hk] at this
                  simpa using this
                rw [this]
                exact ⟨_, rfl⟩
          obtain ⟨e, he⟩ := hnone
          rw [Repo.UpdateTitle_nonempty E r id title hid, he]
          exact (GormDB.WhereIDFirst_frame E r.DB id).1
  · rw [Repo.GetBooks_eq]
    exact (GormDB.Find_eq r.DB).2.1
  · by_cases hid : id = ""
    · subst hid; rfl
    · rw [Repo.GetBookByID_nonempty E r id hid]
      exact (GormDB.WhereIDFirst_frame E r.DB id).1
  · rw [Repo.GetBooksByID_eq]
    exact (GormDB.WhereGt5OrderDescFind_eq r.DB).2.1

/-- On the sample repository "7" names no book, and an update of its title
leaves the store as it was. -/
theorem rejected_update_and_reads_keep_the_store_witness :
    (∀ row ∈ sampleRepo.DB.store.rows, Engine.decimal.identifies "7" row = false) ∧
    (sampleRepo.UpdateTitle Engine.decimal "7" (.ok "New")).1.status = 400 ∧
    (sampleRepo.UpdateTitle Engine.decimal "7" (.ok "New")).2.DB.store = sampleRepo.DB.store :=
  ⟨by decide, by decide,
    (rejected_update_and_reads_keep_the_store Engine.decimal sampleRepo "7" (.ok "New")).1
      (Or.inr (Or.inr (by decide)))⟩

end BookService
